import Mathlib

/-!
Verification of the sentence-transformers embedding service
(`src/docker/sentence-transformers/app.py`).

The service is embedded shallowly:
* the process-wide model handle is an `Option Model`;
* the environment is a function `String → Option String` (`os.getenv`);
* the model's `encode` call is a field of `Model` returning
  `Except String (List (List Float))` — `.error e` models a raised
  exception with message `e`;
* each endpoint handler is a pure function returning
  `Except HTTPError payload`, where `.error` models a raised
  `HTTPException`;
* `generate_embeddings_run` additionally returns a `Bool` recording
  whether the model's encode operation was invoked on this request;
* `lifespan_startup` additionally returns the list of emitted log lines.
-/

namespace EmbeddingService

/-- A raised `HTTPException`: status code and detail string. -/
structure HTTPError where
  status : Nat
  detail : String
deriving DecidableEq, Repr

/-- The loaded `SentenceTransformer` handle, abstracted to the operations and
attributes the service reads: `encode` (batch inference, which may raise),
`get_sentence_embedding_dimension`, and the optional `max_seq_length` and
`device` attributes (`none` models the `getattr`/`hasattr` fallback to
an unknown value). -/
structure Model where
  encode : List String → Except String (List (List Float))
  embeddingDimension : Nat
  maxSeqLength : Option Nat
  device : Option String

/-- `EmbeddingRequest` pydantic schema: a sentence list and an optional
model-name field (default `None`). -/
structure EmbeddingRequest where
  sentences : List String
  model : Option String := none

/-- `EmbeddingResponse` pydantic schema. -/
structure EmbeddingResponse where
  embeddings : List (List Float)

/-- Payload of a successful `GET /health`. -/
structure HealthResponse where
  status : String
  model_loaded : Bool
deriving DecidableEq, Repr

/-- Payload of `GET /`. -/
structure RootResponse where
  service : String
  version : String
  model : String
  status : String
deriving DecidableEq, Repr

/-- Payload of a successful `GET /model/info`. -/
structure ModelInfoResponse where
  model_name : String
  max_seq_length : Option Nat
  embedding_dimension : Nat
  device : Option String
deriving DecidableEq, Repr

/-- Process environment: `os.getenv` as a partial map. -/
def Env : Type := String → Option String

/-- `os.getenv("MODEL_NAME", "all-MiniLM-L6-v2")`. -/
def getenvModelName (env : Env) : String :=
  (env "MODEL_NAME").getD "all-MiniLM-L6-v2"

/-- Startup half of `lifespan`: read the configured model name, attempt the
load, log the outcome.  Returns the load result (the exception is re-raised,
so a failed load leaves an `.error`) together with the emitted log lines. -/
def lifespan_startup (env : Env) (load : String → Except String Model) :
    Except String Model × List String :=
  let model_name := getenvModelName env
  match load model_name with
  | .ok m => (.ok m, ["Loading model: " ++ model_name,
                      "Model loaded successfully: " ++ model_name])
  | .error e => (.error e, ["Loading model: " ++ model_name,
                            "Failed to load model: " ++ e])

/-- `GET /health`. -/
def health_check (model : Option Model) : Except HTTPError HealthResponse :=
  match model with
  | none => .error ⟨503, "Model not loaded"⟩
  | some _ => .ok ⟨"healthy", true⟩

/-- `GET /`. -/
def root (env : Env) : RootResponse :=
  { service := "sentence-transformers-embedding"
    version := "1.0.0"
    model := getenvModelName env
    status := "running" }

/-- `POST /embeddings`, instrumented: the second component records whether
`model.encode` was invoked while handling this request. -/
def generate_embeddings_run (model : Option Model) (request : EmbeddingRequest) :
    Except HTTPError EmbeddingResponse × Bool :=
  match model with
  | none => (.error ⟨503, "Model not loaded"⟩, false)
  | some m =>
    if request.sentences.isEmpty then
      (.error ⟨400, "No sentences provided"⟩, false)
    else if request.sentences.length > 100 then
      (.error ⟨400, "Too many sentences (max 100)"⟩, false)
    else
      match m.encode request.sentences with
      | .ok embeddings => (.ok ⟨embeddings⟩, true)
      | .error e => (.error ⟨500, "Failed to generate embeddings: " ++ e⟩, true)

/-- `POST /embeddings`: the response of the handler. -/
def generate_embeddings (model : Option Model) (request : EmbeddingRequest) :
    Except HTTPError EmbeddingResponse :=
  (generate_embeddings_run model request).1

/-- `GET /model/info`. -/
def model_info (env : Env) (model : Option Model) :
    Except HTTPError ModelInfoResponse :=
  match model with
  | none => .error ⟨503, "Model not loaded"⟩
  | some m =>
    .ok { model_name := getenvModelName env
          max_seq_length := m.maxSeqLength
          embedding_dimension := m.embeddingDimension
          device := m.device }

/-! Concrete instances used by witnesses. -/

/-- A concrete loaded model whose encode returns one 1-dimensional vector per
input sentence. -/
def wModel : Model :=
  { encode := fun ss => .ok (ss.map fun _ => [(0 : Float)])
    embeddingDimension := 1
    maxSeqLength := some 256
    device := some "cpu" }

/-- A concrete model whose encode always raises. -/
def wFailModel : Model :=
  { encode := fun _ => .error "boom"
    embeddingDimension := 1
    maxSeqLength := none
    device := none }

/-- An environment with `MODEL_NAME` unset. -/
def wEnvUnset : Env := fun _ => none

/-- An environment with `MODEL_NAME` set to `"custom-model"`. -/
def wEnvCustom : Env := fun k => if k = "MODEL_NAME" then some "custom-model" else none

/-! ### Claims -/

/-- C1: for a loaded model and a sentence list of length between 1 and 100,
if the model's batch-encode returns one vector per input, each of the model's
embedding dimensionality, then the response's outer embeddings list has
length equal to the input list's length and every inner vector has length
equal to the model's embedding dimensionality. -/
theorem generate_embeddings_shape (m : Model) (request : EmbeddingRequest)
    (embs : List (List Float))
    (hlen : 1 ≤ request.sentences.length) (hmax : request.sentences.length ≤ 100)
    (henc : m.encode request.sentences = .ok embs)
    (hrows : embs.length = request.sentences.length)
    (hdim : ∀ v ∈ embs, v.length = m.embeddingDimension) :
    ∃ resp, generate_embeddings (some m) request = .ok resp ∧
      resp.embeddings.length = request.sentences.length ∧
      ∀ v ∈ resp.embeddings, v.length = m.embeddingDimension := by
  refine ⟨⟨embs⟩, ?_, hrows, hdim⟩
  have hne : ¬ request.sentences.isEmpty := by
    cases h : request.sentences with
    | nil => rw [h] at hlen; simp at hlen
    | cons a l => simp [h]
  simp only [generate_embeddings, generate_embeddings_run, hne, if_false,
    Nat.not_lt.mpr hmax, henc]
  simp [Nat.not_lt.mpr hmax]

/-- Witness for C1 at a concrete one-sentence request against `wModel`. -/
theorem generate_embeddings_shape_witness :
    ∃ resp,
      generate_embeddings (some wModel) ⟨["hello"], none⟩ = .ok resp ∧
      resp.embeddings.length = (["hello"] : List String).length ∧
      ∀ v ∈ resp.embeddings, v.length = wModel.embeddingDimension :=
  generate_embeddings_shape wModel ⟨["hello"], none⟩ [[(0 : Float)]]
    (by decide) (by decide) rfl rfl (by simp [wModel])

/-- C2: with a loaded model and an empty sentence list, the handler returns a
400 error with detail "No sentences provided", and encode is not invoked. -/
theorem generate_embeddings_empty (m : Model) (request : EmbeddingRequest)
    (h : request.sentences = []) :
    generate_embeddings_run (some m) request =
      (.error ⟨400, "No sentences provided"⟩, false) := by
  simp [generate_embeddings_run, h]

/-- Witness for C2 at the concrete empty request against `wModel`. -/
theorem generate_embeddings_empty_witness :
    generate_embeddings_run (some wModel) ⟨[], none⟩ =
      (.error ⟨400, "No sentences provided"⟩, false) :=
  generate_embeddings_empty wModel ⟨[], none⟩ rfl

/-- C3: with a loaded model and a nonempty sentence list longer than 100, the
handler returns a 400 error with detail "Too many sentences (max 100)", and
encode is not invoked. -/
theorem generate_embeddings_too_many (m : Model) (request : EmbeddingRequest)
    (h : 100 < request.sentences.length) :
    generate_embeddings_run (some m) request =
      (.error ⟨400, "Too many sentences (max 100)"⟩, false) := by
  have hne : ¬ request.sentences.isEmpty := by
    cases hs : request.sentences with
    | nil => rw [hs] at h; simp at h
    | cons a l => simp [hs]
  simp [generate_embeddings_run, hne, h]

/-- Witness for C3 at a concrete 101-sentence request against `wModel`. -/
theorem generate_embeddings_too_many_witness :
    generate_embeddings_run (some wModel) ⟨List.replicate 101 "x", none⟩ =
      (.error ⟨400, "Too many sentences (max 100)"⟩, false) :=
  generate_embeddings_too_many wModel ⟨List.replicate 101 "x", none⟩ (by simp)

/-- C4: while the model handle is absent, `/health`, `/model/info` and
`/embeddings` all return a 503 error; once it is loaded, `/health` returns
`status:"healthy"` with `model_loaded:true`. -/
theorem model_dependent_endpoints_503 :
    (health_check none = .error ⟨503, "Model not loaded"⟩) ∧
    (∀ env : Env, model_info env none = .error ⟨503, "Model not loaded"⟩) ∧
    (∀ req : EmbeddingRequest,
      generate_embeddings none req = .error ⟨503, "Model not loaded"⟩) ∧
    (∀ m : Model, health_check (some m) = .ok ⟨"healthy", true⟩) :=
  ⟨rfl, fun _ => rfl, fun _ => rfl, fun _ => rfl⟩

/-- C5: the `/embeddings` preconditions are checked in the fixed order
model-not-loaded, empty list, oversized list; the first violated one
determines the response (in particular, an absent model yields 503 whatever
the sentence list is). -/
theorem generate_embeddings_check_order :
    (∀ req : EmbeddingRequest,
      generate_embeddings_run none req = (.error ⟨503, "Model not loaded"⟩, false)) ∧
    (∀ (m : Model) (req : EmbeddingRequest), req.sentences = [] →
      generate_embeddings_run (some m) req =
        (.error ⟨400, "No sentences provided"⟩, false)) ∧
    (∀ (m : Model) (req : EmbeddingRequest), 100 < req.sentences.length →
      generate_embeddings_run (some m) req =
        (.error ⟨400, "Too many sentences (max 100)"⟩, false)) := by
  refine ⟨fun _ => rfl, fun m req h => by simp [generate_embeddings_run, h],
    fun m req h => ?_⟩
  have hne : ¬ req.sentences.isEmpty := by
    cases hs : req.sentences with
    | nil => rw [hs] at h; simp at h
    | cons a l => simp [hs]
  simp [generate_embeddings_run, hne, h]

/-- Witness for C5: with no model, a simultaneously empty and an oversized
request both get the 503 answer; with a model, each later check fires. -/
theorem generate_embeddings_check_order_witness :
    (generate_embeddings_run none ⟨[], none⟩ =
      (.error ⟨503, "Model not loaded"⟩, false)) ∧
    (generate_embeddings_run none ⟨List.replicate 101 "x", none⟩ =
      (.error ⟨503, "Model not loaded"⟩, false)) ∧
    (generate_embeddings_run (some wModel) ⟨[], none⟩ =
      (.error ⟨400, "No sentences provided"⟩, false)) ∧
    (generate_embeddings_run (some wModel) ⟨List.replicate 101 "x", none⟩ =
      (.error ⟨400, "Too many sentences (max 100)"⟩, false)) :=
  ⟨generate_embeddings_check_order.1 ⟨[], none⟩,
   generate_embeddings_check_order.1 ⟨List.replicate 101 "x", none⟩,
   generate_embeddings_check_order.2.1 wModel ⟨[], none⟩ rfl,
   generate_embeddings_check_order.2.2 wModel ⟨List.replicate 101 "x", none⟩ (by simp)⟩

/-- C6: if a validated request's encode call raises with message `e`, the
handler returns a 500 error whose detail is the generic message with `e`
attached, and no success payload (hence no partial embeddings) is returned. -/
theorem generate_embeddings_encode_failure (m : Model) (request : EmbeddingRequest)
    (e : String)
    (hne : request.sentences ≠ []) (hmax : request.sentences.length ≤ 100)
    (henc : m.encode request.sentences = .error e) :
    generate_embeddings (some m) request =
      .error ⟨500, "Failed to generate embeddings: " ++ e⟩ ∧
    ∀ resp : EmbeddingResponse,
      generate_embeddings (some m) request ≠ .ok resp := by
  have hne' : ¬ request.sentences.isEmpty := by
    simpa [List.isEmpty_iff] using hne
  have h : generate_embeddings (some m) request =
      .error ⟨500, "Failed to generate embeddings: " ++ e⟩ := by
    simp [generate_embeddings, generate_embeddings_run, hne',
      Nat.not_lt.mpr hmax, henc]
  exact ⟨h, fun resp hresp => by rw [h] at hresp; exact Except.noConfusion hresp⟩

/-- Witness for C6 against `wFailModel`, whose encode raises "boom". -/
theorem generate_embeddings_encode_failure_witness :
    generate_embeddings (some wFailModel) ⟨["hello"], none⟩ =
      .error ⟨500, "Failed to generate embeddings: " ++ "boom"⟩ ∧
    ∀ resp : EmbeddingResponse,
      generate_embeddings (some wFailModel) ⟨["hello"], none⟩ ≠ .ok resp :=
  generate_embeddings_encode_failure wFailModel ⟨["hello"], none⟩ "boom"
    (by simp) (by decide) rfl

/-- C7: `GET /` always succeeds with the static payload — service name,
version, the model identifier read from the environment, and the fixed
status "running" — for every environment, with no dependence on the model
handle. -/
theorem root_static :
    ∀ env : Env,
      root env = { service := "sentence-transformers-embedding"
                   version := "1.0.0"
                   model := (env "MODEL_NAME").getD "all-MiniLM-L6-v2"
                   status := "running" } :=
  fun _ => rfl

/-- C8: if the startup load raises with message `e`, the log stream holds
both the configured model identifier and the underlying cause, the exception
propagates (startup yields `.error e`, never a loaded handle), and with no
model loaded every `/embeddings` request is answered with a 503 error rather
than served. -/
theorem lifespan_load_failure (env : Env) (load : String → Except String Model)
    (e : String) (h : load (getenvModelName env) = .error e) :
    (lifespan_startup env load).1 = .error e ∧
    ("Loading model: " ++ getenvModelName env) ∈ (lifespan_startup env load).2 ∧
    ("Failed to load model: " ++ e) ∈ (lifespan_startup env load).2 ∧
    (∀ req : EmbeddingRequest, ∃ err : HTTPError,
      generate_embeddings none req = .error err ∧ err.status = 503) := by
  refine ⟨?_, ?_, ?_, fun req => ⟨⟨503, "Model not loaded"⟩, rfl, rfl⟩⟩ <;>
    simp [lifespan_startup, h]

/-- Witness for C8: a load that raises "out of memory" under `wEnvCustom`. -/
theorem lifespan_load_failure_witness :
    (lifespan_startup wEnvCustom (fun _ => .error "out of memory")).1 =
      .error "out of memory" ∧
    ("Loading model: " ++ getenvModelName wEnvCustom) ∈
      (lifespan_startup wEnvCustom (fun _ => .error "out of memory")).2 ∧
    ("Failed to load model: " ++ "out of memory") ∈
      (lifespan_startup wEnvCustom (fun _ => .error "out of memory")).2 ∧
    (∀ req : EmbeddingRequest, ∃ err : HTTPError,
      generate_embeddings none req = .error err ∧ err.status = 503) :=
  lifespan_load_failure wEnvCustom (fun _ => .error "out of memory")
    "out of memory" rfl

/-- C9: two `/embeddings` requests that agree on the sentence list but differ
arbitrarily in the optional model field get identical treatment — same
response and same encode-invocation behaviour — for every model handle. -/
theorem model_field_ignored (model : Option Model) (r1 r2 : EmbeddingRequest)
    (h : r1.sentences = r2.sentences) :
    generate_embeddings_run model r1 = generate_embeddings_run model r2 := by
  cases model with
  | none => rfl
  | some m => simp only [generate_embeddings_run, h]

/-- Witness for C9: the model field present vs absent makes no difference at
a concrete request against `wModel`. -/
theorem model_field_ignored_witness :
    generate_embeddings_run (some wModel) ⟨["hello"], none⟩ =
      generate_embeddings_run (some wModel) ⟨["hello"], some "some-other-model"⟩ :=
  model_field_ignored (some wModel) ⟨["hello"], none⟩
    ⟨["hello"], some "some-other-model"⟩ rfl

/-- C10: `/` and `/model/info` report the model name read from the
environment at request time (with the default fallback), independent of the
loaded handle, while startup loads the name read from the startup
environment; so when the two environments give different names, the reported
name differs from the name that was loaded. -/
theorem model_name_from_request_env (envStart envReq : Env)
    (hdiff : getenvModelName envReq ≠ getenvModelName envStart) :
    ((root envReq).model = getenvModelName envReq) ∧
    (∀ m : Model, model_info envReq (some m) =
      .ok { model_name := getenvModelName envReq
            max_seq_length := m.maxSeqLength
            embedding_dimension := m.embeddingDimension
            device := m.device }) ∧
    (∀ load : String → Except String Model,
      (lifespan_startup envStart load).1 = load (getenvModelName envStart)) ∧
    ((root envReq).model ≠ getenvModelName envStart) ∧
    (∀ m : Model, ∀ info : ModelInfoResponse,
      model_info envReq (some m) = .ok info →
        info.model_name ≠ getenvModelName envStart) := by
  refine ⟨rfl, fun m => rfl, fun load => ?_, hdiff, fun m info hinfo => ?_⟩
  · cases hl : load (getenvModelName envStart) <;>
      simp [lifespan_startup, hl]
  · cases hinfo
    exact hdiff

/-- Witness for C10: `MODEL_NAME` set to "custom-model" at startup but unset
at request time makes the reported name the default, not the loaded name. -/
theorem model_name_from_request_env_witness :
    ((root wEnvUnset).model = getenvModelName wEnvUnset) ∧
    (∀ m : Model, model_info wEnvUnset (some m) =
      .ok { model_name := getenvModelName wEnvUnset
            max_seq_length := m.maxSeqLength
            embedding_dimension := m.embeddingDimension
            device := m.device }) ∧
    (∀ load : String → Except String Model,
      (lifespan_startup wEnvCustom load).1 = load (getenvModelName wEnvCustom)) ∧
    ((root wEnvUnset).model ≠ getenvModelName wEnvCustom) ∧
    (∀ m : Model, ∀ info : ModelInfoResponse,
      model_info wEnvUnset (some m) = .ok info →
        info.model_name ≠ getenvModelName wEnvCustom) :=
  model_name_from_request_env wEnvCustom wEnvUnset (by decide)

end EmbeddingService
